import Mathlib

/-!
Shallow embedding of the integration-test orchestrator of
`tests/integration/run_tests.py` and `tests/integration/test_runner.py`.

The two scripts share the same structure: a readiness poll loop
(`wait_for_esphome`), a batch compile loop (`run_compilation_tests`),
a summary (`print_summary`) and a `main` driver; `run_tests.py`
additionally starts and stops docker-compose containers around the run.

External effects are modelled by explicit parameters:
  * the readiness probe is a function `Nat → ProbeResult` giving the result
    of each successive `requests.get` attempt, together with a duration
    function `Nat → Nat` giving the wall-clock seconds each attempt blocks
    (bounded by the per-attempt network timeout of 2 seconds);
  * the compile subprocess is a function `String → CompileResult`;
  * discovered config files are a list of names.
Wall-clock time is in whole seconds (`Nat`).
-/

/-- Result of one `requests.get` probe attempt: either an HTTP response with
a status code, or a raised network exception. -/
inductive ProbeResult where
  | ok (status : Nat)
  | err
deriving DecidableEq

/-- Constant `MAX_WAIT_TIME = 60` (both scripts). -/
def MAX_WAIT_TIME : Nat := 60

/-- The readiness test applied to one probe attempt in the loop body:
`response.status_code == 200`; a raised exception falls into the
`except Exception: pass` branch, i.e. counts as not ready. -/
def isReady : ProbeResult → Bool
  | .ok status => status == 200
  | .err => false

/-- The `while time.time() - start_time < MAX_WAIT_TIME` loop of
`wait_for_esphome` (identical in both scripts).  State: `i` is the index of
the next probe attempt, `elapsed` the wall-clock seconds since `start_time`
at the loop-condition check.  One iteration: probe attempt `i` (taking
`dur i` seconds); if it yields status 200 return `True`; otherwise
`time.sleep(2)` and loop.  Returns the boolean result paired with the
wall-clock second at which the function returns. -/
def wait_loop (probe : Nat → ProbeResult) (dur : Nat → Nat)
    (i : Nat) (elapsed : Nat) : Bool × Nat :=
  if elapsed < MAX_WAIT_TIME then
    if isReady (probe i) then (true, elapsed + dur i)
    else wait_loop probe dur (i + 1) (elapsed + dur i + 2)
  else (false, elapsed)
termination_by MAX_WAIT_TIME - elapsed
decreasing_by simp [MAX_WAIT_TIME] at *; omega

/-- Function `wait_for_esphome()` : start the poll loop at attempt 0, elapsed 0. -/
def wait_for_esphome (probe : Nat → ProbeResult) (dur : Nat → Nat) :
    Bool × Nat :=
  wait_loop probe dur 0 0

/-- Wall-clock second at which probe attempt `k` starts, when the loop
entered attempt `i` at time `elapsed` and no attempt before `k` succeeded:
each earlier attempt costs its duration plus the 2-second sleep. -/
def attemptTime (dur : Nat → Nat) (i : Nat) (elapsed : Nat) : Nat → Nat
  | 0 => elapsed
  | k + 1 => attemptTime dur (i + 1) (elapsed + dur i + 2) k

/-- One entry of the `results` list: the tuple `(config.name, success, error)`
appended for each config.  `detail` is `none` exactly when the script appends
Python `None`. -/
structure TestOutcome where
  name : String
  success : Bool
  detail : Option String
deriving DecidableEq, Repr

/-- Result of one `subprocess.run` compile invocation:
`completed returncode stderr` for a process that ran to completion (with its
captured stderr text), `timedOut` for `subprocess.TimeoutExpired`, and
`excRaised msg` for any other exception `e` with `str(e) = msg`. -/
inductive CompileResult where
  | completed (returncode : Int) (stderr : String)
  | timedOut
  | excRaised (msg : String)
deriving DecidableEq

namespace RunTests

/-! Embedding of `tests/integration/run_tests.py`. -/

/-- The body of the `for config in test_configs` loop of
`run_compilation_tests` in `run_tests.py`, for one config name:
returncode 0 → `(name, True, None)`; nonzero returncode →
`(name, False, result.stderr)` (output is captured); timeout →
`(name, False, "Timeout")`; any other exception → `(name, False, str(e))`. -/
def outcomeFor (compile : String → CompileResult) (name : String) :
    TestOutcome :=
  match compile name with
  | .completed rc stderr =>
      if rc = 0 then ⟨name, true, none⟩ else ⟨name, false, some stderr⟩
  | .timedOut => ⟨name, false, some "Timeout"⟩
  | .excRaised msg => ⟨name, false, some msg⟩

/-- The `results = []; for config in test_configs: ... results.append(...)`
loop: processes the remaining configs in order, appending one outcome each. -/
def runLoop (compile : String → CompileResult) :
    List String → List TestOutcome → List TestOutcome
  | [], results => results
  | c :: cs, results => runLoop compile cs (results ++ [outcomeFor compile c])

/-- Function `run_compilation_tests()` in `run_tests.py`: if no configs were
discovered the function returns the empty list; otherwise it runs the loop
starting from the empty `results` list.  (The `if not test_configs` branch
returns `[]`, which coincides with running the loop on an empty list.) -/
def run_compilation_tests (compile : String → CompileResult)
    (configs : List String) : List TestOutcome :=
  if configs = [] then [] else runLoop compile configs []

/-- Count `passed = sum(1 for _, success, _ in results if success)`. -/
def passedCount (results : List TestOutcome) : Nat :=
  (results.filter (fun o => o.success)).length

/-- Count `failed = len(results) - passed`. -/
def failedCount (results : List TestOutcome) : Nat :=
  results.length - passedCount results

/-- Return value of `print_summary(results)`: `failed == 0`. -/
def print_summary (results : List TestOutcome) : Bool :=
  failedCount results == 0

end RunTests

namespace TestRunner

/-! Embedding of `tests/integration/test_runner.py`. -/

/-- The loop body of `run_compilation_tests` in `test_runner.py`.  Output is
streamed, not captured, so a nonzero returncode records the fixed marker
`"See output above"` instead of the stderr text; the other cases are as in
`run_tests.py`. -/
def outcomeFor (compile : String → CompileResult) (name : String) :
    TestOutcome :=
  match compile name with
  | .completed rc _ =>
      if rc = 0 then ⟨name, true, none⟩
      else ⟨name, false, some "See output above"⟩
  | .timedOut => ⟨name, false, some "Timeout"⟩
  | .excRaised msg => ⟨name, false, some msg⟩

/-- The `for config in test_configs` loop of `test_runner.py`. -/
def runLoop (compile : String → CompileResult) :
    List String → List TestOutcome → List TestOutcome
  | [], results => results
  | c :: cs, results => runLoop compile cs (results ++ [outcomeFor compile c])

/-- Function `run_compilation_tests()` in `test_runner.py`: returns Python `False`
(modelled `none`) when no configs are discovered, otherwise the results
list. -/
def run_compilation_tests (compile : String → CompileResult)
    (configs : List String) : Option (List TestOutcome) :=
  if configs = [] then none else some (runLoop compile configs [])

/-- Python truthiness of the value `main` receives back: `False` and the
empty list are falsy (`if not results`). -/
def resultsFalsy : Option (List TestOutcome) → Bool
  | none => true
  | some l => l.isEmpty

/-- Count `passed = sum(1 for _, success, _ in results if success)`. -/
def passedCount (results : List TestOutcome) : Nat :=
  (results.filter (fun o => o.success)).length

/-- Count `failed = len(results) - passed`. -/
def failedCount (results : List TestOutcome) : Nat :=
  results.length - passedCount results

/-- Return value of `print_summary(results)`: `failed == 0`. -/
def print_summary (results : List TestOutcome) : Bool :=
  failedCount results == 0

/-- Function `main()` of `test_runner.py`: abort with exit code 1 if
`wait_for_esphome()` is false; abort with 1 if `not results`; otherwise
exit 0 when `print_summary` says all passed, else 1. -/
def main (probe : Nat → ProbeResult) (dur : Nat → Nat)
    (compile : String → CompileResult) (configs : List String) : Nat :=
  if (wait_for_esphome probe dur).1 = false then 1
  else
    let results := run_compilation_tests compile configs
    if resultsFalsy results then 1
    else if print_summary (results.getD []) then 0 else 1

end TestRunner

namespace RunTests

/-- One external command effect issued by `run_tests.py`. -/
inductive Effect where
  | composeUp
  | compileCmd (name : String)
  | logsCmd
  | stopCall
  | downCmd
deriving DecidableEq

/-- The external world `main()` runs against: whether
`docker-compose up -d --build` exits zero, the probe behaviour, the
discovered config names, the compile behaviour, and the `KEEP_RUNNING`
environment flag. -/
structure World where
  startOk : Bool
  probe : Nat → ProbeResult
  dur : Nat → Nat
  configs : List String
  compile : String → CompileResult
  keepRunning : Bool

/-- Function `stop_containers()`: always entered (its invocation is the `stopCall`
effect); it issues `docker-compose down -v` only when `KEEP_RUNNING` is not
set, otherwise it merely prints the manual-teardown hint. -/
def stop_containers (keepRunning : Bool) : List Effect :=
  if keepRunning then [.stopCall] else [.stopCall, .downCmd]

/-- Effects of the compile loop: one `docker exec ... esphome compile`
command per discovered config, in order. -/
def compileEffects (configs : List String) : List Effect :=
  configs.map (fun c => .compileCmd c)

/-- Function `main()` of `run_tests.py` as exit code plus the trace of external
command effects.  The `try:` body returns 1 if `start_containers()` fails;
returns 1 (after `show_logs_on_failure()`) if `wait_for_esphome()` is
false; returns 1 if `run_compilation_tests()` gave no results; otherwise
returns 0 or 1 according to `print_summary`, showing logs on failure.  The
`finally:` clause appends `stop_containers()` on every one of these
paths. -/
def main (w : World) : Nat × List Effect :=
  if w.startOk = false then
    (1, [.composeUp] ++ stop_containers w.keepRunning)
  else if (wait_for_esphome w.probe w.dur).1 = false then
    (1, [.composeUp] ++ [.logsCmd] ++ stop_containers w.keepRunning)
  else
    let results := run_compilation_tests w.compile w.configs
    if results = [] then
      (1, [.composeUp] ++ compileEffects w.configs
            ++ stop_containers w.keepRunning)
    else if print_summary results then
      (0, [.composeUp] ++ compileEffects w.configs
            ++ stop_containers w.keepRunning)
    else
      (1, [.composeUp] ++ compileEffects w.configs ++ [.logsCmd]
            ++ stop_containers w.keepRunning)

/-- The TestOutcomes recorded during a run of `main`: empty when the run
aborts before the batch stage (container start failure or readiness
timeout), otherwise the list built by `run_compilation_tests`. -/
def outcomesOf (w : World) : List TestOutcome :=
  if w.startOk = true ∧ (wait_for_esphome w.probe w.dur).1 = true then
    run_compilation_tests w.compile w.configs
  else []

end RunTests

namespace TestRunner

/-- The TestOutcomes recorded during a run of `main` of `test_runner.py`:
empty when the run aborts at the readiness stage, otherwise the list built
by `run_compilation_tests` (Python `False`, returned when no configs are
found, records no outcomes). -/
def outcomesOf (probe : Nat → ProbeResult) (dur : Nat → Nat)
    (compile : String → CompileResult) (configs : List String) :
    List TestOutcome :=
  if (wait_for_esphome probe dur).1 = true then
    (run_compilation_tests compile configs).getD []
  else []

end TestRunner

/-- A file name matches the glob pattern `*.yaml` exactly when it ends in
`.yaml`. -/
def matchesYaml (name : String) : Bool :=
  List.isSuffixOf ".yaml".data name.data

/-- Discovery, `list(test_configs_dir.glob("*.yaml"))` (both scripts):
from the directory entries in the order the filesystem enumerates them,
keep those matching the pattern `*.yaml`; `pathlib` yields matches in
enumeration order, without sorting. -/
def discoverConfigs (listing : List String) : List String :=
  listing.filter matchesYaml

/-- Lexicographic comparison of names, character by character. -/
def charListLe : List Char → List Char → Bool
  | [], _ => true
  | _ :: _, [] => false
  | a :: as, b :: bs => if a = b then charListLe as bs else decide (a < b)

/-- Name `a` sorts no later than `b`. -/
def nameLe (a b : String) : Bool := charListLe a.data b.data

/-- Insert a name into an already name-sorted list. -/
def insertSorted (s : String) : List String → List String
  | [] => [s]
  | t :: ts => if nameLe s t then s :: t :: ts else t :: insertSorted s ts

/-- Sorting by name, the order the spec prescribes for discovery. -/
def sortByName : List String → List String
  | [] => []
  | s :: ss => insertSorted s (sortByName ss)

/-! Concrete probe/compile behaviours used to instantiate the theorems. -/

/-- A probe that raises a network exception on every attempt. -/
def neverProbe : Nat → ProbeResult := fun _ => .err

/-- Probe durations: attempt 0 blocks 1 second, attempt 29 blocks its full
2-second network timeout, all other attempts fail instantly. -/
def slowDur : Nat → Nat := fun i => if i = 0 then 1 else if i = 29 then 2 else 0

/-- Probe attempts that all fail instantly. -/
def zeroDur : Nat → Nat := fun _ => 0

/-- A probe that returns HTTP 200 on the third attempt (index 2) and raises
on every other attempt. -/
def readyThird : Nat → ProbeResult := fun i => if i = 2 then .ok 200 else .err

/-- A probe whose fourth attempt gets an HTTP 503 response and which raises
on every other attempt. -/
def flaky503 : Nat → ProbeResult := fun i => if i = 3 then .ok 503 else .err

/-- A compile behaviour: `a.yaml` compiles cleanly, `b.yaml` exits 1 with
stderr `"syntax error"`, anything else times out. -/
def exCompile : String → CompileResult := fun name =>
  if name = "a.yaml" then .completed 0 ""
  else if name = "b.yaml" then .completed 1 "syntax error"
  else .timedOut

/-- The two discovered configs of the spec's concrete scenario. -/
def exConfigs : List String := ["a.yaml", "b.yaml"]

/-- Replace raised probe exceptions by an HTTP 500 response, attempt by
attempt; used to state that exceptions are handled exactly like non-200
responses. -/
def errAs500 (probe : Nat → ProbeResult) : Nat → ProbeResult := fun j =>
  match probe j with
  | .err => .ok 500
  | r => r

/-! Helper lemmas. -/

theorem RunTests.runLoop_eq (compile : String → CompileResult) :
    ∀ (cs : List String) (acc : List TestOutcome),
      RunTests.runLoop compile cs acc = acc ++ cs.map (RunTests.outcomeFor compile) := by
  intro cs
  induction cs with
  | nil => intro acc; simp [RunTests.runLoop]
  | cons c cs ih => intro acc; simp [RunTests.runLoop, ih]

theorem RunTests.run_compilation_tests_eq (compile : String → CompileResult)
    (configs : List String) :
    RunTests.run_compilation_tests compile configs
      = configs.map (RunTests.outcomeFor compile) := by
  by_cases h : configs = []
  · subst h; simp [RunTests.run_compilation_tests]
  · simp [RunTests.run_compilation_tests, h, RunTests.runLoop_eq]

theorem TestRunner.runLoop_append_map (compile : String → CompileResult) :
    ∀ (cs : List String) (acc : List TestOutcome),
      TestRunner.runLoop compile cs acc
        = acc ++ cs.map (TestRunner.outcomeFor compile) := by
  intro cs
  induction cs with
  | nil => intro acc; simp [TestRunner.runLoop]
  | cons c cs ih => intro acc; simp [TestRunner.runLoop, ih]

theorem RunTests.passed_add_unsuccessful (results : List TestOutcome) :
    RunTests.passedCount results
        + (results.filter (fun o => o.success = false)).length
      = results.length := by
  induction results with
  | nil => simp [RunTests.passedCount]
  | cons o os ih =>
      by_cases h : o.success <;>
        simp [RunTests.passedCount, List.filter, h] at * <;> omega

theorem RunTests.failedCount_eq (results : List TestOutcome) :
    RunTests.failedCount results
      = (results.filter (fun o => o.success = false)).length := by
  have h := RunTests.passed_add_unsuccessful results
  simp [RunTests.failedCount] at h ⊢
  omega

theorem TestRunner.failedCount_eq_runTests (results : List TestOutcome) :
    TestRunner.failedCount results = RunTests.failedCount results := rfl

theorem TestRunner.print_summary_eq_runTests (results : List TestOutcome) :
    TestRunner.print_summary results = RunTests.print_summary results := rfl

theorem wait_loop_success (probe : Nat → ProbeResult) (dur : Nat → Nat)
    (i elapsed : Nat) (hr : isReady (probe i) = true)
    (he : elapsed < MAX_WAIT_TIME) :
    wait_loop probe dur i elapsed = (true, elapsed + dur i) := by
  rw [wait_loop]
  simp [hr, he]

theorem wait_loop_continue (probe : Nat → ProbeResult) (dur : Nat → Nat)
    (i elapsed : Nat) (hnr : isReady (probe i) = false)
    (he : elapsed < MAX_WAIT_TIME) :
    wait_loop probe dur i elapsed
      = wait_loop probe dur (i + 1) (elapsed + dur i + 2) := by
  rw [wait_loop]
  simp [hnr, he]

theorem wait_loop_expire (probe : Nat → ProbeResult) (dur : Nat → Nat)
    (i elapsed : Nat) (he : ¬ elapsed < MAX_WAIT_TIME) :
    wait_loop probe dur i elapsed = (false, elapsed) := by
  rw [wait_loop]
  simp [he]

theorem wait_loop_never_ready (probe : Nat → ProbeResult) (dur : Nat → Nat)
    (hnr : ∀ j, isReady (probe j) = false) (hd : ∀ j, dur j ≤ 2) :
    ∀ n i elapsed, MAX_WAIT_TIME - elapsed ≤ n →
      (wait_loop probe dur i elapsed).1 = false ∧
      (elapsed < MAX_WAIT_TIME →
        MAX_WAIT_TIME ≤ (wait_loop probe dur i elapsed).2 ∧
        (wait_loop probe dur i elapsed).2 ≤ 63) ∧
      (¬ elapsed < MAX_WAIT_TIME → (wait_loop probe dur i elapsed).2 = elapsed) := by
  intro n
  induction n with
  | zero =>
      intro i elapsed h
      have he : ¬ elapsed < MAX_WAIT_TIME := by
        simp [MAX_WAIT_TIME] at h ⊢; omega
      rw [wait_loop_expire probe dur i elapsed he]
      exact ⟨rfl, fun hc => absurd hc he, fun _ => rfl⟩
  | succ n ih =>
      intro i elapsed h
      by_cases he : elapsed < MAX_WAIT_TIME
      · rw [wait_loop_continue probe dur i elapsed (hnr i) he]
        have hstep : MAX_WAIT_TIME - (elapsed + dur i + 2) ≤ n := by
          simp [MAX_WAIT_TIME] at h he ⊢; omega
        have hrec := ih (i + 1) (elapsed + dur i + 2) hstep
        refine ⟨hrec.1, fun _ => ?_, fun hc => absurd he ?_⟩
        · by_cases he' : elapsed + dur i + 2 < MAX_WAIT_TIME
          · exact hrec.2.1 he'
          · have := hrec.2.2 he'
            have hdi := hd i
            simp [MAX_WAIT_TIME] at he he' ⊢
            omega
        · exact hc
      · rw [wait_loop_expire probe dur i elapsed he]
        exact ⟨rfl, fun hc => absurd hc he, fun _ => rfl⟩

theorem wait_loop_congr (probe probe' : Nat → ProbeResult) (dur : Nat → Nat)
    (h : ∀ j, isReady (probe j) = isReady (probe' j)) :
    ∀ n i elapsed, MAX_WAIT_TIME - elapsed ≤ n →
      wait_loop probe dur i elapsed = wait_loop probe' dur i elapsed := by
  intro n
  induction n with
  | zero =>
      intro i elapsed hn
      have he : ¬ elapsed < MAX_WAIT_TIME := by
        simp [MAX_WAIT_TIME] at hn ⊢; omega
      rw [wait_loop_expire probe dur i elapsed he,
        wait_loop_expire probe' dur i elapsed he]
  | succ n ih =>
      intro i elapsed hn
      by_cases he : elapsed < MAX_WAIT_TIME
      · cases hri : isReady (probe i) with
        | true =>
            rw [wait_loop_success probe dur i elapsed hri he,
              wait_loop_success probe' dur i elapsed ((h i).symm.trans hri) he]
        | false =>
            rw [wait_loop_continue probe dur i elapsed hri he,
              wait_loop_continue probe' dur i elapsed ((h i).symm.trans hri) he]
            exact ih (i + 1) (elapsed + dur i + 2)
              (by simp [MAX_WAIT_TIME] at hn he ⊢; omega)
      · rw [wait_loop_expire probe dur i elapsed he,
          wait_loop_expire probe' dur i elapsed he]

theorem attemptTime_mono (dur : Nat → Nat) :
    ∀ k i elapsed, elapsed ≤ attemptTime dur i elapsed k := by
  intro k
  induction k with
  | zero => intro i elapsed; simp [attemptTime]
  | succ k ih =>
      intro i elapsed
      have h := ih (i + 1) (elapsed + dur i + 2)
      simp only [attemptTime]
      omega

theorem wait_loop_first_success (probe : Nat → ProbeResult) (dur : Nat → Nat) :
    ∀ k i elapsed,
      (∀ j, j < k → isReady (probe (i + j)) = false) →
      isReady (probe (i + k)) = true →
      attemptTime dur i elapsed k < MAX_WAIT_TIME →
      wait_loop probe dur i elapsed
        = (true, attemptTime dur i elapsed k + dur (i + k)) := by
  intro k
  induction k with
  | zero =>
      intro i elapsed _ hr hlt
      simp only [attemptTime] at hlt ⊢
      simp only [Nat.add_zero] at hr ⊢
      exact wait_loop_success probe dur i elapsed hr hlt
  | succ k ih =>
      intro i elapsed hnr hr hlt
      have h0 : isReady (probe i) = false := by
        have := hnr 0 (Nat.succ_pos k)
        simpa using this
      have he : elapsed < MAX_WAIT_TIME :=
        lt_of_le_of_lt (attemptTime_mono dur (k + 1) i elapsed) hlt
      rw [wait_loop_continue probe dur i elapsed h0 he]
      have hrec := ih (i + 1) (elapsed + dur i + 2)
        (fun j hj => by
          have := hnr (j + 1) (by omega)
          rw [show i + 1 + j = i + (j + 1) by omega]
          exact this)
        (by rw [show i + 1 + k = i + (k + 1) by omega]; exact hr)
        (by simpa only [attemptTime] using hlt)
      rw [hrec]
      simp only [attemptTime]
      rw [show i + 1 + k = i + (k + 1) by omega]

theorem RunTests.run_empty_iff (compile : String → CompileResult)
    (configs : List String) :
    RunTests.run_compilation_tests compile configs = [] ↔ configs = [] := by
  rw [RunTests.run_compilation_tests_eq]
  simp

theorem TestRunner.run_getD_eq (compile : String → CompileResult)
    (configs : List String) :
    (TestRunner.run_compilation_tests compile configs).getD []
      = configs.map (TestRunner.outcomeFor compile) := by
  by_cases h : configs = []
  · subst h; simp [TestRunner.run_compilation_tests]
  · simp [TestRunner.run_compilation_tests, h, TestRunner.runLoop_append_map]

theorem RunTests.passedCount_le (results : List TestOutcome) :
    RunTests.passedCount results ≤ results.length :=
  List.length_filter_le _ results

/-! Claim theorems. -/

/-- C5 (amended): if no probe attempt ever returns HTTP 200 and each attempt
blocks at most its 2-second network timeout, `wait_for_esphome` terminates
and returns `false` no earlier than 60 seconds after it starts and no later
than 64 seconds (one poll interval plus one per-attempt probe timeout of
tolerance, rather than one poll interval alone). -/
theorem wait_never_ready_bounds (probe : Nat → ProbeResult) (dur : Nat → Nat)
    (hnr : ∀ j, probe j ≠ .ok 200) (hd : ∀ j, dur j ≤ 2) :
    (wait_for_esphome probe dur).1 = false ∧
    60 ≤ (wait_for_esphome probe dur).2 ∧
    (wait_for_esphome probe dur).2 < 64 := by
  have hnr' : ∀ j, isReady (probe j) = false := by
    intro j
    cases hp : probe j with
    | ok s =>
        have hs : s ≠ 200 := fun h => hnr j (by rw [hp, h])
        simp [isReady, hs]
    | err => simp [isReady]
  have h := wait_loop_never_ready probe dur hnr' hd MAX_WAIT_TIME 0 0
    (by simp)
  have h2 := h.2.1 (by simp [MAX_WAIT_TIME])
  refine ⟨h.1, ?_, ?_⟩
  · have := h2.1; simpa [MAX_WAIT_TIME, wait_for_esphome] using this
  · have := h2.2; simp [wait_for_esphome] at this ⊢; omega

/-- Witness for C5's theorem: a probe raising on every attempt, each attempt
failing instantly. -/
theorem wait_never_ready_bounds_witness :
    (wait_for_esphome neverProbe zeroDur).1 = false ∧
    60 ≤ (wait_for_esphome neverProbe zeroDur).2 ∧
    (wait_for_esphome neverProbe zeroDur).2 < 64 :=
  wait_never_ready_bounds neverProbe zeroDur
    (fun _ => by simp [neverProbe]) (fun _ => by simp [zeroDur])

/-- C5 counterexample to the stated 62-second upper bound: a probe that
raises on every attempt (so it never returns 200), whose attempt durations
stay within the 2-second network timeout, makes `wait_for_esphome` return
`false` only at the 63-second mark, later than 62 seconds. -/
theorem wait_never_ready_62s_cex :
    wait_for_esphome neverProbe slowDur = (false, 63) ∧ ¬ ((63 : Nat) ≤ 62) := by
  constructor
  · simp [wait_for_esphome, wait_loop, neverProbe, slowDur, isReady,
      MAX_WAIT_TIME]
  · omega

/-- C6: if the probe first returns HTTP 200 on attempt `k` and that attempt
starts before the 60-second deadline, `wait_for_esphome` returns `true` at
that attempt — at most one probe-timeout (2 seconds) after the attempt
starts and within one polling interval of the deadline — without waiting
for the remainder of the deadline. -/
theorem wait_ready_at_attempt (probe : Nat → ProbeResult) (dur : Nat → Nat)
    (k : Nat) (hbefore : ∀ j, j < k → isReady (probe j) = false)
    (hk : isReady (probe k) = true) (hd : ∀ j, dur j ≤ 2)
    (hlt : attemptTime dur 0 0 k < MAX_WAIT_TIME) :
    wait_for_esphome probe dur = (true, attemptTime dur 0 0 k + dur k) ∧
    (wait_for_esphome probe dur).2 ≤ attemptTime dur 0 0 k + 2 ∧
    (wait_for_esphome probe dur).2 < MAX_WAIT_TIME + 2 := by
  have h := wait_loop_first_success probe dur k 0 0
    (fun j hj => by simpa using hbefore j hj) (by simpa using hk) hlt
  have hmain : wait_for_esphome probe dur
      = (true, attemptTime dur 0 0 k + dur k) := by
    simpa [wait_for_esphome] using h
  refine ⟨hmain, ?_, ?_⟩
  · rw [hmain]; have := hd k; simpa using this
  · rw [hmain]; have := hd k; simp [MAX_WAIT_TIME] at hlt ⊢; omega

/-- Witness for C6's theorem: the probe of the spec scenario, succeeding on
the third attempt (index 2), which starts at the 4-second mark; the wait
returns `true` at 4 seconds. -/
theorem wait_ready_at_attempt_witness :
    wait_for_esphome readyThird zeroDur = (true, 4) := by
  have h := wait_ready_at_attempt readyThird zeroDur 2
    (by decide) (by decide) (fun _ => by simp [zeroDur]) (by decide)
  simpa [attemptTime, zeroDur] using h.1

/-- C7: a probe attempt that raises a network error is swallowed: at any
attempt `i` raising before the deadline, the loop neither returns nor
propagates but simply sleeps and moves on to attempt `i + 1`; globally,
the wait behaves exactly as if every raising attempt had instead received a
non-200 (HTTP 500) response, so polling continues until success or deadline
expiry. -/
theorem probe_error_swallowed (probe : Nat → ProbeResult) (dur : Nat → Nat) :
    (∀ i elapsed, probe i = .err → elapsed < MAX_WAIT_TIME →
      wait_loop probe dur i elapsed
        = wait_loop probe dur (i + 1) (elapsed + dur i + 2)) ∧
    wait_for_esphome probe dur = wait_for_esphome (errAs500 probe) dur := by
  constructor
  · intro i elapsed hp he
    exact wait_loop_continue probe dur i elapsed (by simp [isReady, hp]) he
  · have hcongr : ∀ j, isReady (probe j) = isReady (errAs500 probe j) := by
      intro j
      cases hp : probe j with
      | ok s => simp [errAs500, hp]
      | err => simp [errAs500, hp, isReady]
    exact wait_loop_congr probe (errAs500 probe) dur hcongr MAX_WAIT_TIME 0 0
      (by simp)

/-- Witness for C7's theorem: the always-raising probe at attempt 0 with
instant attempts continues to attempt 1 at the 2-second mark. -/
theorem probe_error_swallowed_witness :
    wait_loop neverProbe zeroDur 0 0 = wait_loop neverProbe zeroDur 1 2 := by
  have h := (probe_error_swallowed neverProbe zeroDur).1 0 0 rfl
    (by simp [MAX_WAIT_TIME])
  simpa [zeroDur] using h

/-- C10: a probe attempt that completes with an HTTP status other than 200
is treated as not-yet-ready: before the deadline the loop neither returns
nor raises there but sleeps and moves on to the next attempt, and the whole
wait behaves exactly as if that attempt had raised a (swallowed) network
error, so polling continues until a 200 response or deadline expiry. -/
theorem probe_non200_continues (probe : Nat → ProbeResult) (dur : Nat → Nat)
    (i elapsed s : Nat) (hp : probe i = .ok s) (hs : s ≠ 200)
    (he : elapsed < MAX_WAIT_TIME) :
    wait_loop probe dur i elapsed
        = wait_loop probe dur (i + 1) (elapsed + dur i + 2) ∧
    wait_for_esphome probe dur
        = wait_for_esphome (fun j => if j = i then .err else probe j) dur := by
  have hr : isReady (probe i) = false := by simp [isReady, hp, hs]
  constructor
  · exact wait_loop_continue probe dur i elapsed hr he
  · have hcongr : ∀ j,
        isReady (probe j)
          = isReady ((fun j => if j = i then .err else probe j) j) := by
      intro j
      by_cases hj : j = i
      · subst hj
        show isReady (probe j) = isReady (if j = j then ProbeResult.err else probe j)
        rw [if_pos rfl, hr]
        rfl
      · simp [hj]
    exact wait_loop_congr probe _ dur hcongr MAX_WAIT_TIME 0 0 (by simp)

/-- Witness for C10's theorem: a probe answering HTTP 503 on attempt 3,
reached at the 6-second mark, continues to attempt 4 at the 8-second
mark. -/
theorem probe_non200_continues_witness :
    wait_loop flaky503 zeroDur 3 6 = wait_loop flaky503 zeroDur 4 8 := by
  have h := (probe_non200_continues flaky503 zeroDur 3 6 503
    (by simp [flaky503]) (by omega) (by simp [MAX_WAIT_TIME])).1
  simpa [zeroDur] using h

/-- C3: for every discovered input the batch records exactly one outcome —
both loops produce exactly one `TestOutcome` per config, in order, so a
failing input never aborts the batch — and the per-input outcome follows
the disjoint cases: exit code 0 → success with no detail; nonzero exit →
failure with the captured stderr (`run_tests.py`) or the generic
`"See output above"` marker (`test_runner.py`); timeout → failure with
detail `"Timeout"`; any other invocation error → failure with the error
message. -/
theorem batch_outcome_cases (compile : String → CompileResult)
    (configs : List String) :
    RunTests.run_compilation_tests compile configs
        = configs.map (RunTests.outcomeFor compile) ∧
    (∀ l, TestRunner.run_compilation_tests compile configs = some l →
      l = configs.map (TestRunner.outcomeFor compile)) ∧
    (∀ name s, compile name = .completed 0 s →
      RunTests.outcomeFor compile name = ⟨name, true, none⟩ ∧
      TestRunner.outcomeFor compile name = ⟨name, true, none⟩) ∧
    (∀ name rc s, compile name = .completed rc s → rc ≠ 0 →
      RunTests.outcomeFor compile name = ⟨name, false, some s⟩ ∧
      TestRunner.outcomeFor compile name
        = ⟨name, false, some "See output above"⟩) ∧
    (∀ name, compile name = .timedOut →
      RunTests.outcomeFor compile name = ⟨name, false, some "Timeout"⟩ ∧
      TestRunner.outcomeFor compile name = ⟨name, false, some "Timeout"⟩) ∧
    (∀ name msg, compile name = .excRaised msg →
      RunTests.outcomeFor compile name = ⟨name, false, some msg⟩ ∧
      TestRunner.outcomeFor compile name = ⟨name, false, some msg⟩) := by
  refine ⟨RunTests.run_compilation_tests_eq compile configs, ?_, ?_, ?_, ?_, ?_⟩
  · intro l hl
    by_cases h : configs = []
    · simp [TestRunner.run_compilation_tests, h] at hl
    · simp [TestRunner.run_compilation_tests, h, TestRunner.runLoop_append_map] at hl
      simp [hl]
  · intro name s h
    constructor <;> simp [RunTests.outcomeFor, TestRunner.outcomeFor, h]
  · intro name rc s h hrc
    constructor <;> simp [RunTests.outcomeFor, TestRunner.outcomeFor, h, hrc]
  · intro name h
    constructor <;> simp [RunTests.outcomeFor, TestRunner.outcomeFor, h]
  · intro name msg h
    constructor <;> simp [RunTests.outcomeFor, TestRunner.outcomeFor, h]

/-- Witness for C3's theorem: the spec's concrete scenario — `b.yaml` exits
nonzero with stderr `"syntax error"` and is recorded as a failure carrying
that diagnostic. -/
theorem batch_outcome_cases_witness :
    RunTests.outcomeFor exCompile "b.yaml"
      = ⟨"b.yaml", false, some "syntax error"⟩ :=
  ((batch_outcome_cases exCompile exConfigs).2.2.2.1 "b.yaml" 1 "syntax error"
    (by simp [exCompile]) (by omega)).1

/-- C9: every outcome the batch compiler ever appends has `detail = none`
exactly when its success flag is `true`; in particular every failed outcome
carries a (non-`None`) detail string.  Holds for both script variants. -/
theorem outcome_detail_none_iff_success (compile : String → CompileResult)
    (configs : List String) :
    (∀ o, o ∈ RunTests.run_compilation_tests compile configs →
      (o.detail = none ↔ o.success = true)) ∧
    (∀ l o, TestRunner.run_compilation_tests compile configs = some l →
      o ∈ l → (o.detail = none ↔ o.success = true)) := by
  have hcase : ∀ (c : String),
      ((RunTests.outcomeFor compile c).detail = none
          ↔ (RunTests.outcomeFor compile c).success = true) ∧
      ((TestRunner.outcomeFor compile c).detail = none
          ↔ (TestRunner.outcomeFor compile c).success = true) := by
    intro c
    cases h : compile c with
    | completed rc stderr =>
        by_cases hrc : rc = 0 <;>
          simp [RunTests.outcomeFor, TestRunner.outcomeFor, h, hrc]
    | timedOut => simp [RunTests.outcomeFor, TestRunner.outcomeFor, h]
    | excRaised msg => simp [RunTests.outcomeFor, TestRunner.outcomeFor, h]
  constructor
  · intro o ho
    rw [RunTests.run_compilation_tests_eq] at ho
    obtain ⟨c, _, rfl⟩ := List.mem_map.mp ho
    exact (hcase c).1
  · intro l o hl ho
    have hl' : l = configs.map (TestRunner.outcomeFor compile) := by
      by_cases h : configs = []
      · simp [TestRunner.run_compilation_tests, h] at hl
      · simp [TestRunner.run_compilation_tests, h, TestRunner.runLoop_append_map] at hl
        simp [hl]
    subst hl'
    obtain ⟨c, _, rfl⟩ := List.mem_map.mp ho
    exact (hcase c).2

/-- Witness for C9's theorem: the successful `a.yaml` outcome of the
concrete scenario, a member of the produced outcome list. -/
theorem outcome_detail_none_iff_success_witness :
    ((⟨"a.yaml", true, none⟩ : TestOutcome).detail = none
      ↔ (⟨"a.yaml", true, none⟩ : TestOutcome).success = true) :=
  (outcome_detail_none_iff_success exCompile exConfigs).1
    ⟨"a.yaml", true, none⟩
    (by simp [RunTests.run_compilation_tests_eq, exConfigs]
        exact Or.inl (by simp [RunTests.outcomeFor, exCompile]))

/-- C2: for any compile behaviour and any list of `N` discovered configs,
the summary satisfies `passed + failed = N` (no outcome is dropped), and if
at least one compile run exits nonzero then `failed ≥ 1` and `print_summary`
reports overall success as `false`.  Holds for both script variants. -/
theorem summary_counts (compile : String → CompileResult)
    (configs : List String) :
    RunTests.passedCount (RunTests.run_compilation_tests compile configs)
        + RunTests.failedCount (RunTests.run_compilation_tests compile configs)
        = configs.length ∧
    TestRunner.passedCount
        ((TestRunner.run_compilation_tests compile configs).getD [])
        + TestRunner.failedCount
          ((TestRunner.run_compilation_tests compile configs).getD [])
        = configs.length ∧
    ((∃ c ∈ configs, ∃ rc s, compile c = .completed rc s ∧ rc ≠ 0) →
      1 ≤ RunTests.failedCount (RunTests.run_compilation_tests compile configs) ∧
      RunTests.print_summary (RunTests.run_compilation_tests compile configs)
          = false ∧
      1 ≤ TestRunner.failedCount
            ((TestRunner.run_compilation_tests compile configs).getD []) ∧
      TestRunner.print_summary
            ((TestRunner.run_compilation_tests compile configs).getD [])
          = false) := by
  have hsum : ∀ (rs : List TestOutcome),
      RunTests.passedCount rs + RunTests.failedCount rs = rs.length := by
    intro rs
    have h := RunTests.passedCount_le rs
    simp [RunTests.failedCount]
    omega
  have hlen1 : (RunTests.run_compilation_tests compile configs).length
      = configs.length := by
    rw [RunTests.run_compilation_tests_eq]; simp
  have hlen2 : ((TestRunner.run_compilation_tests compile configs).getD
      []).length = configs.length := by
    rw [TestRunner.run_getD_eq]; simp
  refine ⟨by rw [hsum, hlen1], by
      have h2 := hsum ((TestRunner.run_compilation_tests compile configs).getD [])
      rw [hlen2] at h2
      exact h2, ?_⟩
  rintro ⟨c, hc, rc, s, hcomp, hrc⟩
  have hfail : ∀ (rs : List TestOutcome) (o : TestOutcome), o ∈ rs →
      o.success = false → 1 ≤ RunTests.failedCount rs := by
    intro rs o ho hsucc
    rw [RunTests.failedCount_eq]
    have : o ∈ rs.filter (fun o => o.success = false) :=
      List.mem_filter.mpr ⟨ho, by simp [hsucc]⟩
    have hne := List.ne_nil_of_mem this
    have := List.length_pos.mpr hne
    omega
  have ho1 : RunTests.outcomeFor compile c
      ∈ RunTests.run_compilation_tests compile configs := by
    rw [RunTests.run_compilation_tests_eq]
    exact List.mem_map_of_mem _ hc
  have ho2 : TestRunner.outcomeFor compile c
      ∈ (TestRunner.run_compilation_tests compile configs).getD [] := by
    rw [TestRunner.run_getD_eq]
    exact List.mem_map_of_mem _ hc
  have hs1 : (RunTests.outcomeFor compile c).success = false := by
    simp [RunTests.outcomeFor, hcomp, hrc]
  have hs2 : (TestRunner.outcomeFor compile c).success = false := by
    simp [TestRunner.outcomeFor, hcomp, hrc]
  have hf1 := hfail _ _ ho1 hs1
  have hf2 := hfail _ _ ho2 hs2
  rw [TestRunner.failedCount_eq_runTests, TestRunner.print_summary_eq_runTests]
  refine ⟨hf1, ?_, hf2, ?_⟩ <;>
    · simp [RunTests.print_summary]
      omega

/-- Witness for C2's theorem: the concrete scenario with `a.yaml` passing
and `b.yaml` exiting 1, giving `passed + failed = 2`, `failed ≥ 1`, overall
success `false`. -/
theorem summary_counts_witness :
    RunTests.passedCount (RunTests.run_compilation_tests exCompile exConfigs)
        + RunTests.failedCount
          (RunTests.run_compilation_tests exCompile exConfigs)
        = exConfigs.length ∧
    1 ≤ RunTests.failedCount
          (RunTests.run_compilation_tests exCompile exConfigs) ∧
    RunTests.print_summary (RunTests.run_compilation_tests exCompile exConfigs)
        = false := by
  have h := summary_counts exCompile exConfigs
  have hex : ∃ c ∈ exConfigs, ∃ rc s,
      exCompile c = .completed rc s ∧ rc ≠ 0 :=
    ⟨"b.yaml", by simp [exConfigs], 1, "syntax error",
      by simp [exCompile], by omega⟩
  exact ⟨h.1, (h.2.2 hex).1, (h.2.2 hex).2.1⟩

/-- C1: each `main` returns exit code 0 or 1, and it returns 0 exactly when
the run is fully successful — the list of TestOutcomes recorded during the
run is nonempty and its failed count is zero.  Every other case, including
container-start failure, the prober never succeeding (no outcomes recorded)
and zero discovered inputs, exits 1.  Holds for both script variants. -/
theorem exit_zero_iff_run_success (w : RunTests.World)
    (probe : Nat → ProbeResult) (dur : Nat → Nat)
    (compile : String → CompileResult) (configs : List String) :
    ((RunTests.main w).1 = 0 ∨ (RunTests.main w).1 = 1) ∧
    ((RunTests.main w).1 = 0 ↔
      RunTests.outcomesOf w ≠ [] ∧
      RunTests.failedCount (RunTests.outcomesOf w) = 0) ∧
    (TestRunner.main probe dur compile configs = 0 ∨
      TestRunner.main probe dur compile configs = 1) ∧
    (TestRunner.main probe dur compile configs = 0 ↔
      TestRunner.outcomesOf probe dur compile configs ≠ [] ∧
      TestRunner.failedCount
          (TestRunner.outcomesOf probe dur compile configs) = 0) := by
  refine ⟨?_, ?_, ?_, ?_⟩
  case _ =>
    by_cases hs : w.startOk = false
    · simp [RunTests.main, hs]
    · simp at hs
      by_cases hw : (wait_for_esphome w.probe w.dur).1 = false
      · simp [RunTests.main, hs, hw]
      · simp at hw
        by_cases hr : RunTests.run_compilation_tests w.compile w.configs = []
        · simp [RunTests.main, hs, hw, hr]
        · by_cases hp : RunTests.print_summary
              (RunTests.run_compilation_tests w.compile w.configs) = true
          · simp [RunTests.main, hs, hw, hr, hp]
          · simp [RunTests.main, hs, hw, hr, hp]
  case _ =>
    by_cases hs : w.startOk = false
    · simp [RunTests.main, RunTests.outcomesOf, hs]
    · simp at hs
      by_cases hw : (wait_for_esphome w.probe w.dur).1 = false
      · simp [RunTests.main, RunTests.outcomesOf, hs, hw]
      · simp at hw
        by_cases hr : RunTests.run_compilation_tests w.compile w.configs = []
        · simp [RunTests.main, RunTests.outcomesOf, hs, hw, hr]
        · by_cases hp : RunTests.print_summary
              (RunTests.run_compilation_tests w.compile w.configs) = true
          · simp [RunTests.print_summary] at hp
            simp [RunTests.main, RunTests.outcomesOf, hs, hw, hr, hp,
              RunTests.print_summary]
          · simp [RunTests.print_summary] at hp
            simp [RunTests.main, RunTests.outcomesOf, hs, hw, hr, hp,
              RunTests.print_summary]
  case _ =>
    by_cases hw : (wait_for_esphome probe dur).1 = false
    · simp [TestRunner.main, hw]
    · simp at hw
      by_cases hc : configs = []
      · simp [TestRunner.main, TestRunner.run_compilation_tests,
          TestRunner.resultsFalsy, hw, hc]
      · by_cases hp : TestRunner.print_summary
            (TestRunner.runLoop compile configs []) = true
        · simp [TestRunner.main, TestRunner.run_compilation_tests,
            TestRunner.resultsFalsy, TestRunner.runLoop_append_map, hw, hc, hp]
        · simp [TestRunner.main, TestRunner.run_compilation_tests,
            TestRunner.resultsFalsy, TestRunner.runLoop_append_map, hw, hc, hp]
  case _ =>
    by_cases hw : (wait_for_esphome probe dur).1 = false
    · simp [TestRunner.main, TestRunner.outcomesOf, hw]
    · simp at hw
      by_cases hc : configs = []
      · simp [TestRunner.main, TestRunner.outcomesOf,
          TestRunner.run_compilation_tests, TestRunner.resultsFalsy, hw, hc]
      · by_cases hp : TestRunner.print_summary
            (TestRunner.runLoop compile configs []) = true
        · simp [TestRunner.print_summary] at hp
          simp [TestRunner.main, TestRunner.outcomesOf,
            TestRunner.run_compilation_tests, TestRunner.resultsFalsy,
            TestRunner.runLoop_append_map, hw, hc, hp, TestRunner.print_summary]
        · simp [TestRunner.print_summary] at hp
          simp [TestRunner.main, TestRunner.outcomesOf,
            TestRunner.run_compilation_tests, TestRunner.resultsFalsy,
            TestRunner.runLoop_append_map, hw, hc, hp, TestRunner.print_summary]

theorem RunTests.compileEffects_count_stop (cs : List String) :
    (RunTests.compileEffects cs).count RunTests.Effect.stopCall = 0 := by
  rw [List.count_eq_zero]
  simp [RunTests.compileEffects]

theorem RunTests.compileEffects_count_down (cs : List String) :
    (RunTests.compileEffects cs).count RunTests.Effect.downCmd = 0 := by
  rw [List.count_eq_zero]
  simp [RunTests.compileEffects]

/-- C4: on every path through `main()` of `run_tests.py` — container-start
failure, readiness timeout, empty batch, all-passed, and some-failed —
the `finally:` clause invokes `stop_containers()` exactly once, and the
`docker-compose down -v` teardown command is issued exactly once, unless
`KEEP_RUNNING` is set, in which case it is issued zero times. -/
theorem teardown_invoked_once (w : RunTests.World) :
    (RunTests.main w).2.count RunTests.Effect.stopCall = 1 ∧
    (RunTests.main w).2.count RunTests.Effect.downCmd
      = (if w.keepRunning then 0 else 1) := by
  have hstop : ∀ b : Bool,
      (RunTests.stop_containers b).count RunTests.Effect.stopCall = 1 := by
    intro b; cases b <;> simp [RunTests.stop_containers]
  have hdown : ∀ b : Bool,
      (RunTests.stop_containers b).count RunTests.Effect.downCmd
        = (if b then 0 else 1) := by
    intro b; cases b <;> simp [RunTests.stop_containers]
  have hmain : ∀ (pre : List RunTests.Effect),
      pre.count RunTests.Effect.stopCall = 0 →
      pre.count RunTests.Effect.downCmd = 0 →
      ((pre ++ RunTests.stop_containers w.keepRunning).count
          RunTests.Effect.stopCall = 1 ∧
        (pre ++ RunTests.stop_containers w.keepRunning).count
          RunTests.Effect.downCmd = (if w.keepRunning then 0 else 1)) := by
    intro pre h1 h2
    constructor
    · rw [List.count_append, h1, hstop]
    · rw [List.count_append, h2, hdown]
      simp
  have hc1 : (RunTests.Effect.composeUp
      :: RunTests.compileEffects w.configs).count
      RunTests.Effect.stopCall = 0 := by
    rw [List.count_cons, RunTests.compileEffects_count_stop]
    simp
  have hc2 : (RunTests.Effect.composeUp
      :: RunTests.compileEffects w.configs).count
      RunTests.Effect.downCmd = 0 := by
    rw [List.count_cons, RunTests.compileEffects_count_down]
    simp
  have hc3 : ((RunTests.Effect.composeUp :: RunTests.compileEffects w.configs)
      ++ [RunTests.Effect.logsCmd]).count RunTests.Effect.stopCall = 0 := by
    rw [List.count_append, hc1]
    simp
  have hc4 : ((RunTests.Effect.composeUp :: RunTests.compileEffects w.configs)
      ++ [RunTests.Effect.logsCmd]).count RunTests.Effect.downCmd = 0 := by
    rw [List.count_append, hc2]
    simp
  by_cases hs : w.startOk = false
  · have h := hmain [RunTests.Effect.composeUp] (by simp) (by simp)
    simpa [RunTests.main, hs] using h
  · simp at hs
    by_cases hw : (wait_for_esphome w.probe w.dur).1 = false
    · have h := hmain [RunTests.Effect.composeUp, RunTests.Effect.logsCmd]
        (by simp) (by simp)
      simpa [RunTests.main, hs, hw] using h
    · simp at hw
      by_cases hr : RunTests.run_compilation_tests w.compile w.configs = []
      · have h := hmain
          (RunTests.Effect.composeUp :: RunTests.compileEffects w.configs)
          hc1 hc2
        simpa [RunTests.main, hs, hw, hr] using h
      · by_cases hp : RunTests.print_summary
            (RunTests.run_compilation_tests w.compile w.configs) = true
        · have h := hmain
            (RunTests.Effect.composeUp :: RunTests.compileEffects w.configs)
            hc1 hc2
          simpa [RunTests.main, hs, hw, hr, hp] using h
        · have h := hmain
            ((RunTests.Effect.composeUp :: RunTests.compileEffects w.configs)
              ++ [RunTests.Effect.logsCmd]) hc3 hc4
          simpa [RunTests.main, hs, hw, hr, hp] using h

/-- C8 (code divergence): discovery keeps the filesystem enumeration order;
on a directory whose entries enumerate as `b.yaml` before `a.yaml`, the code
processes `[b.yaml, a.yaml]`, which is not the name-sorted order
`[a.yaml, b.yaml]` the design prescribes. -/
theorem discovery_order_not_sorted :
    discoverConfigs ["b.yaml", "a.yaml"] = ["b.yaml", "a.yaml"] ∧
    sortByName (discoverConfigs ["b.yaml", "a.yaml"]) = ["a.yaml", "b.yaml"] ∧
    discoverConfigs ["b.yaml", "a.yaml"]
      ≠ sortByName (discoverConfigs ["b.yaml", "a.yaml"]) := by
  refine ⟨by decide, by decide, by decide⟩
